import Mathlib

/-
Verification of the fintech analytics dashboard repository.

Shallow embedding conventions:
- Monetary amounts are integers in cents (the generator rounds every amount
  to 2 decimal places, so SQL SUM over them is exact and ROUND(x, 2) on such
  sums is the identity); SQL REAL division (AVG, approval rates) is modelled
  over ℚ, with ROUND(x, 2) modelled by `round2`.
- Timestamps are minutes since an epoch; strftime grouping by calendar hour
  is truncating division by 60, grouping by calendar date is division by 1440.
- SQL NULL results (aggregates over zero rows, division by zero, which SQLite
  turns into NULL rather than an error) are modelled with `Option`.
- The random source of the generator is an oracle: each draw is a parameter,
  constrained exactly by the contract of the Python primitive that produced it
  (random.choice xs ∈ xs, random.uniform a b ∈ [a, b], random.choices l w ∈ l).
-/

/-- Row of the `customers` table (setup_database.py). The `created_at`
column is defaulted by the store and read by no query, so it is omitted. -/
structure Customer where
  id : Nat
  name : String
  email : String
  phone : String
  document : String
  deriving DecidableEq

/-- Row of the `merchants` table (setup_database.py). -/
structure Merchant where
  id : Nat
  name : String
  category : String
  document : String
  deriving DecidableEq

/-- Row of the `transactions` table (setup_database.py). `amount` is in
cents; `transaction_date` is in minutes since the epoch. -/
structure Txn where
  id : Nat
  customer_id : Nat
  merchant_id : Nat
  amount : Int
  payment_method : String
  status : String
  transaction_date : Nat
  description : String
  deriving DecidableEq

/-- The three tables of the backing store `fintech_data.db`. -/
structure DB where
  customers : List Customer
  merchants : List Merchant
  transactions : List Txn
  deriving DecidableEq

def emptyDB : DB := ⟨[], [], []⟩

/-- SQLite ROUND(x, 2) over the rational model of REAL values. -/
def round2 (q : ℚ) : ℚ := (round (q * 100) : ℚ) / 100

/-- STATUSES list from generate_data.py. -/
def STATUSES : List String := ["approved", "declined", "pending", "refunded"]

/-- PAYMENT_METHODS list from generate_data.py. -/
def PAYMENT_METHODS : List String := ["pix", "credit_card", "debit_card", "boleto"]

/-- Bulk-transaction description pool from generate_data.py. -/
def DESCRIPTIONS : List String :=
  ["Compra em estabelecimento", "Pagamento de serviço", "Compra online",
   "Assinatura mensal", "Recarga", "Transferência"]

/- ORDER BY ... DESC is modelled by insertion sort on a key, descending. -/

def insertDesc {α β : Type} [LinearOrder β] (key : α → β) (a : α) : List α → List α
  | [] => [a]
  | b :: l => if key b ≤ key a then a :: b :: l else b :: insertDesc key a l

def sortDesc {α β : Type} [LinearOrder β] (key : α → β) : List α → List α
  | [] => []
  | a :: l => insertDesc key a (sortDesc key l)

/-- Result row of `get_top_merchants` (database.py lines 64-87). -/
structure TopMerchantRow where
  name : String
  category : String
  total_transactions : Nat
  total_volume : Int
  avg_ticket : ℚ
  approval_rate : ℚ
  deriving DecidableEq

/-- Per-merchant group of the `get_top_merchants` query: join rows of
`merchants m JOIN transactions t ON m.id = t.merchant_id` surviving the
`WHERE t.status = 'approved'` filter, grouped by `m.id`. -/
def topMerchantGroup (db : DB) (m : Merchant) : List Txn :=
  db.transactions.filter (fun t => decide (t.status = "approved" ∧ t.merchant_id = m.id))

/-- get_top_merchants from database.py: approved-only join rows grouped per
merchant (a merchant with no approved join row yields no group, as in an
inner join), ordered by total_volume descending, LIMIT `limit`. -/
def get_top_merchants (db : DB) (limit : Nat) : List TopMerchantRow :=
  let rows := db.merchants.filterMap (fun m =>
    let g := topMerchantGroup db m
    if g = [] then none else
    some { name := m.name,
           category := m.category,
           total_transactions := g.length,
           total_volume := (g.map Txn.amount).sum,
           avg_ticket := round2 ((((g.map Txn.amount).sum : Int) : ℚ) / (g.length : ℚ)),
           approval_rate := round2 (100 *
             (((g.filter (fun t => decide (t.status = "approved"))).length : ℚ)) / (g.length : ℚ)) })
  (sortDesc TopMerchantRow.total_volume rows).take limit

/-- Result row of `get_category_performance` (database.py lines 127-146). -/
structure CategoryRow where
  category : String
  total_transactions : Nat
  total_volume : Int
  avg_ticket : ℚ
  deriving DecidableEq

/-- Join rows of `merchants m JOIN transactions t ON m.id = t.merchant_id`. -/
def categoryPairs (db : DB) : List (Merchant × Txn) :=
  db.merchants.flatMap (fun m =>
    (db.transactions.filter (fun t => decide (t.merchant_id = m.id))).map (fun t => (m, t)))

/-- get_category_performance from database.py: join rows grouped by merchant
category; `total_volume` is `SUM(CASE WHEN t.status = 'approved' THEN t.amount
ELSE 0 END)`; ordered by total_volume descending. -/
def get_category_performance (db : DB) : List CategoryRow :=
  let pairs := categoryPairs db
  let cats := (pairs.map (fun p => p.1.category)).dedup
  let rows := cats.map (fun c =>
    let g := pairs.filter (fun p => decide (p.1.category = c))
    { category := c,
      total_transactions := g.length,
      total_volume := (g.map (fun p => if p.2.status = "approved" then p.2.amount else 0)).sum,
      avg_ticket := round2 ((((g.map (fun p => p.2.amount)).sum : Int) : ℚ) / (g.length : ℚ)) })
  sortDesc CategoryRow.total_volume rows

/-- Result of `get_kpis` (database.py lines 209-239). The aggregate columns
computed over the `transactions` table are NULL (Python None) when the table
is empty, because SQLite evaluates SUM/AVG over zero rows, and division by a
zero COUNT, to NULL rather than raising. -/
structure Kpis where
  total_transactions : Nat
  total_volume : Option Int
  avg_ticket : Option ℚ
  approval_rate : Option ℚ
  total_customers : Nat
  total_merchants : Nat
  deriving DecidableEq

/-- get_kpis from database.py. -/
def get_kpis (db : DB) : Kpis :=
  let ts := db.transactions
  let n := ts.length
  let approvedN := (ts.filter (fun t => decide (t.status = "approved"))).length
  { total_transactions := n,
    total_volume :=
      if n = 0 then none
      else some ((ts.map (fun t => if t.status = "approved" then t.amount else 0)).sum),
    avg_ticket :=
      if n = 0 then none
      else some (round2 ((((ts.map Txn.amount).sum : Int) : ℚ) / (n : ℚ))),
    approval_rate :=
      if n = 0 then none
      else some (round2 (100 * (approvedN : ℚ) / (n : ℚ))),
    total_customers := db.customers.length,
    total_merchants := db.merchants.length }

/-- Result row of the high-value half of `get_anomalies` (database.py lines
157-175). The constant `anomaly_type = 'high_value'` column is omitted. -/
structure HighValueRow where
  id : Nat
  transaction_date : Nat
  customer_name : String
  merchant_name : String
  amount : Int
  payment_method : String
  status : String
  deriving DecidableEq

/-- The `JOIN customers c ON t.customer_id = c.id JOIN merchants m ON
t.merchant_id = m.id` lookup: a transaction contributes a row only when both
parents exist (ids are primary keys, so the first match is the match). -/
def joinCM (db : DB) (t : Txn) : Option (Customer × Merchant) :=
  match db.customers.find? (fun c => decide (c.id = t.customer_id)),
        db.merchants.find? (fun m => decide (m.id = t.merchant_id)) with
  | some c, some m => some (c, m)
  | _, _ => none

/-- The SELECT list of the high-value query for one joined transaction. -/
def highValueRowOf (db : DB) (t : Txn) : Option HighValueRow :=
  (joinCM db t).map (fun p =>
    { id := t.id, transaction_date := t.transaction_date,
      customer_name := p.1.name, merchant_name := p.2.name,
      amount := t.amount, payment_method := t.payment_method,
      status := t.status })

/-- High-value half of get_anomalies: joined transactions with
`WHERE t.amount > threshold_amount`, ordered by amount descending, LIMIT 50. -/
def get_anomalies_high_value (db : DB) (threshold_amount : Int) : List HighValueRow :=
  (sortDesc HighValueRow.amount
    ((db.transactions.filterMap (highValueRowOf db)).filter
      (fun r => decide (threshold_amount < r.amount)))).take 50

/-- strftime('%Y-%m-%d %H', transaction_date): truncation to the calendar
hour, i.e. division of the minute timestamp by 60. -/
def hourWindow (t : Txn) : Nat := t.transaction_date / 60

/-- The `customer_hourly` CTE of get_anomalies (database.py lines 178-187):
transactions grouped by (customer_id, hour window), `HAVING COUNT(*) >=
threshold_frequency`; each group is (customer_id, window, count). -/
def customer_hourly (db : DB) (threshold_frequency : Nat) : List (Nat × Nat × Nat) :=
  let keys := (db.transactions.map (fun t => (t.customer_id, hourWindow t))).dedup
  (keys.map (fun k =>
    (k.1, k.2, (db.transactions.filter
      (fun t => decide (t.customer_id = k.1 ∧ hourWindow t = k.2))).length))).filter
    (fun r => decide (threshold_frequency ≤ r.2.2))

/-- Result row of the high-frequency half of `get_anomalies` (database.py
lines 188-201). The constant `anomaly_type` column is omitted. -/
structure FreqRow where
  customer_id : Nat
  customer_name : String
  hour_window : Nat
  transactions_count : Nat
  deriving DecidableEq

/-- High-frequency half of get_anomalies: CTE groups joined with `customers`
and re-joined with `transactions` on the same customer and hour window (the
outer GROUP BY collapses that join back to one row per CTE group, which
survives only if at least one matching transaction row exists): the output
row of one CTE group, or none when a join partner is missing. -/
def freqRowOf (db : DB) (r : Nat × Nat × Nat) : Option FreqRow :=
  (db.customers.find? (fun c => decide (c.id = r.1))).bind (fun c =>
    if (db.transactions.filter
         (fun t => decide (t.customer_id = r.1 ∧ hourWindow t = r.2.1))).length = 0
    then none
    else some { customer_id := r.1, customer_name := c.name,
                hour_window := r.2.1, transactions_count := r.2.2 })

/-- High-frequency half of get_anomalies: the surviving CTE group rows,
ordered by transactions_count descending, LIMIT 50. -/
def get_anomalies_high_frequency (db : DB) (threshold_frequency : Nat) : List FreqRow :=
  (sortDesc FreqRow.transactions_count
    ((customer_hourly db threshold_frequency).filterMap (freqRowOf db))).take 50

/-- get_anomalies from database.py: the pair (df_high, df_freq). -/
def get_anomalies (db : DB) (threshold_amount : Int) (threshold_frequency : Nat) :
    List HighValueRow × List FreqRow :=
  (get_anomalies_high_value db threshold_amount,
   get_anomalies_high_frequency db threshold_frequency)

/-- Result row of `get_transactions_filtered` (database.py lines 241-286). -/
structure FilteredRow where
  id : Nat
  transaction_date : Nat
  customer_name : String
  merchant_name : String
  category : String
  amount : Int
  payment_method : String
  status : String
  description : String
  deriving DecidableEq

/-- One optional string filter of get_transactions_filtered. Python guards
each with `if value and value != 'Todos'`: a missing value (None) and the
falsy empty string, as well as the sentinel 'Todos', leave the rows
unfiltered; any other value appends `AND column = ?`. -/
def applyOptFilter (col : FilteredRow → String) (v : Option String)
    (rows : List FilteredRow) : List FilteredRow :=
  match v with
  | none => rows
  | some s => if s = "" ∨ s = "Todos" then rows
              else rows.filter (fun r => decide (col r = s))

/-- DATE(transaction_date): the calendar day of a minute timestamp. -/
def txnDay (r : FilteredRow) : Nat := r.transaction_date / 1440

/-- get_transactions_filtered from database.py: joined transactions, the four
optional conjunctive predicates, ordered by transaction_date descending,
LIMIT `limit`. Dates are day numbers; None models an omitted filter. -/
def get_transactions_filtered (db : DB) (start_date end_date : Option Nat)
    (payment_method status : Option String) (limit : Nat) : List FilteredRow :=
  let base := db.transactions.filterMap (fun t =>
    (joinCM db t).map (fun p =>
      { id := t.id, transaction_date := t.transaction_date,
        customer_name := p.1.name, merchant_name := p.2.name,
        category := p.2.category, amount := t.amount,
        payment_method := t.payment_method, status := t.status,
        description := t.description : FilteredRow }))
  let r1 := match start_date with
            | none => base
            | some d => base.filter (fun r => decide (d ≤ txnDay r))
  let r2 := match end_date with
            | none => r1
            | some d => r1.filter (fun r => decide (txnDay r ≤ d))
  let r3 := applyOptFilter FilteredRow.payment_method payment_method r2
  let r4 := applyOptFilter FilteredRow.status status r3
  (sortDesc FilteredRow.transaction_date r4).take limit

/- ===== Synthetic data generator (src/generate_data.py) ===== -/

/-- The random draws behind one bulk transaction of `generate_transactions`
(generate_data.py lines 91-135): the chosen customer and merchant ids, the
amount produced by the three-tier uniform mixture (already rounded to cents),
the weighted categorical draws, the event time, and the description. -/
structure TxnDraw where
  customer_id : Nat
  merchant_id : Nat
  amount : Int
  payment_method : String
  status : String
  txnTime : Nat
  description : String
  deriving DecidableEq

/-- Contract of the random primitives for one bulk transaction:
`random.choice customer_ids / merchant_ids` returns members of those lists;
the amount is `round(random.uniform(10, 200), 2)`, `round(random.uniform(200,
1000), 2)` or `round(random.uniform(1000, 5000), 2)` depending on the tier
coin flips (so in cents it lies in one of the three ranges);
`random.choices(PAYMENT_METHODS, ...)` and `random.choices(STATUSES, ...)`
return members; the description is `random.choice(descriptions)`. -/
abbrev TxnDraw.Valid (cids mids : List Nat) (d : TxnDraw) : Prop :=
  d.customer_id ∈ cids ∧ d.merchant_id ∈ mids ∧
  ((1000 ≤ d.amount ∧ d.amount ≤ 20000) ∨
   (20000 ≤ d.amount ∧ d.amount ≤ 100000) ∨
   (100000 ≤ d.amount ∧ d.amount ≤ 500000)) ∧
  d.payment_method ∈ PAYMENT_METHODS ∧
  d.status ∈ STATUSES ∧
  d.description ∈ DESCRIPTIONS

/-- The INSERT of one bulk transaction, with the AUTOINCREMENT id. -/
def mkTxn (id : Nat) (d : TxnDraw) : Txn :=
  ⟨id, d.customer_id, d.merchant_id, d.amount, d.payment_method, d.status,
   d.txnTime, d.description⟩

/-- generate_transactions from generate_data.py: one INSERT per draw, ids
assigned sequentially by the store. -/
def generate_transactions : Nat → List TxnDraw → List Txn
  | _, [] => []
  | nextId, d :: ds => mkTxn nextId d :: generate_transactions (nextId + 1) ds

/-- The random draws behind `generate_anomalies` (generate_data.py lines
145-183): the customer/merchant of the injected 25000 transaction, the burst
customer, and the ten per-burst-transaction merchant/amount/payment-method
draws; `nowMin` is `datetime.now()` in minutes. -/
structure AnomalyDraw where
  hv_customer_id : Nat
  hv_merchant_id : Nat
  burst_customer_id : Nat
  burst_merchant_ids : List Nat
  burst_amounts : List Int
  burst_methods : List String
  nowMin : Nat
  deriving DecidableEq

/-- Contract of the random primitives of generate_anomalies: every chosen id
is a member of the id lists, the ten burst draws exist (`for i in range(10)`),
each burst amount is `round(random.uniform(100, 500), 2)` (cents in
[10000, 50000]), each burst method is `random.choice(PAYMENT_METHODS)`, and
generation time is at least 2 hours past the epoch so the backdated
timestamps `now - 2h` and `now - 1h` exist. -/
abbrev AnomalyDraw.Valid (cids mids : List Nat) (a : AnomalyDraw) : Prop :=
  a.hv_customer_id ∈ cids ∧ a.hv_merchant_id ∈ mids ∧
  a.burst_customer_id ∈ cids ∧
  a.burst_merchant_ids.length = 10 ∧ (∀ m ∈ a.burst_merchant_ids, m ∈ mids) ∧
  a.burst_amounts.length = 10 ∧ (∀ x ∈ a.burst_amounts, 10000 ≤ x ∧ x ≤ 50000) ∧
  a.burst_methods.length = 10 ∧ (∀ s ∈ a.burst_methods, s ∈ PAYMENT_METHODS) ∧
  120 ≤ a.nowMin

/-- The injected high-value transaction of generate_anomalies: approved,
credit card, amount 25000.00, dated `now - 2 hours`. -/
def hvInjected (nextId : Nat) (a : AnomalyDraw) : Txn :=
  { id := nextId, customer_id := a.hv_customer_id, merchant_id := a.hv_merchant_id,
    amount := 2500000, payment_method := "credit_card", status := "approved",
    transaction_date := a.nowMin - 120, description := "Compra de alto valor" }

/-- The i-th transaction of the injected burst: approved, for the one chosen
customer, dated `now - 1 hour + 2 * i` minutes. -/
def burstTxn (nextId : Nat) (a : AnomalyDraw) (i : Nat) : Txn :=
  { id := nextId + 1 + i, customer_id := a.burst_customer_id,
    merchant_id := a.burst_merchant_ids.getD i 0,
    amount := a.burst_amounts.getD i 0,
    payment_method := a.burst_methods.getD i "pix",
    status := "approved",
    transaction_date := (a.nowMin - 60) + 2 * i,
    description := "Compra suspeita - múltiplas transações" }

/-- generate_anomalies from generate_data.py: one approved credit-card
transaction of amount 25000.00 dated `now - 2 hours`, then ten approved
transactions for one customer starting at `now - 1 hour`, spaced 2 minutes
apart (`for i in range(10)`). -/
def generate_anomalies (nextId : Nat) (a : AnomalyDraw) : List Txn :=
  hvInjected nextId a :: (List.range 10).map (burstTxn nextId a)

/-- The store produced by one successful generation run (main of
generate_data.py): the created customers and merchants, then the bulk
transactions of `generate_transactions`, then the rows of
`generate_anomalies`, with customer_ids/merchant_ids being the ids of the
created rows. -/
def genDB (customers : List Customer) (merchants : List Merchant)
    (draws : List TxnDraw) (a : AnomalyDraw) : DB :=
  ⟨customers, merchants,
   generate_transactions 1 draws ++ generate_anomalies (1 + draws.length) a⟩

/- ===== main() transaction flow of generate_data.py (C1) ===== -/

/-- A sqlite3 connection: the durable committed state and the pending state
seen by the cursor. `commit` persists pending work; `rollback` discards it. -/
structure Conn where
  committed : DB
  pending : DB
  deriving DecidableEq

def conn_commit (c : Conn) : Conn := ⟨c.pending, c.pending⟩

def conn_rollback (c : Conn) : Conn := ⟨c.committed, c.committed⟩

/-- The three DELETE statements of main() ("Limpando dados antigos"). -/
def clearTables (c : Conn) : Conn := { c with pending := emptyDB }

/-- The INSERTs of the generation phase appended to the pending state. -/
def insertRows (c : Conn) (rows : DB) : Conn :=
  { c with pending :=
      ⟨c.pending.customers ++ rows.customers,
       c.pending.merchants ++ rows.merchants,
       c.pending.transactions ++ rows.transactions⟩ }

/-- Outcome of the generation phase of main(): either it completes having
inserted `rows`, or some exception is raised mid-run after inserting
`rows` (a prefix of the intended data). -/
inductive GenOutcome where
  | success (rows : DB)
  | failure (rows : DB)
  deriving DecidableEq

/-- main from generate_data.py, lines 230-266: connect; DELETE the three
tables; `conn.commit()`; generate customers, merchants, transactions and
anomalies; on success `conn.commit()`, on any exception `conn.rollback()`;
the result is the durable store after `conn.close()`. -/
def generate_data_main (prior : DB) (g : GenOutcome) : DB :=
  let c0 : Conn := ⟨prior, prior⟩
  let c1 := conn_commit (clearTables c0)
  match g with
  | GenOutcome.success rows => (conn_commit (insertRows c1 rows)).committed
  | GenOutcome.failure rows => (conn_rollback (insertRows c1 rows)).committed

/- ===== Schema provisioner (src/setup_database.py) ===== -/

/-- The DDL objects of the backing store file. -/
structure Schema where
  tables : List String
  indexes : List String
  views : List String
  deriving DecidableEq

def emptySchema : Schema := ⟨[], [], []⟩

/-- CREATE TABLE IF NOT EXISTS: a no-op when the table already exists. -/
def createTableIfNotExists (n : String) (s : Schema) : Schema :=
  if n ∈ s.tables then s else { s with tables := s.tables ++ [n] }

/-- CREATE INDEX (no IF NOT EXISTS in the source): errors if present. -/
def createIndex (n : String) (s : Schema) : Except String Schema :=
  if n ∈ s.indexes then Except.error "index already exists"
  else Except.ok { s with indexes := s.indexes ++ [n] }

/-- CREATE VIEW IF NOT EXISTS: a no-op when the view already exists. -/
def createViewIfNotExists (n : String) (s : Schema) : Schema :=
  if n ∈ s.views then s else { s with views := s.views ++ [n] }

/-- create_database from setup_database.py: `os.remove` destroys any prior
store file (so the prior schema is discarded whatever it was), then the
connection starts from an empty store and the DDL statements run in order. -/
def create_database (_prior : Option Schema) : Except String Schema := do
  let s0 := emptySchema
  let s1 := createTableIfNotExists "customers" s0
  let s2 := createTableIfNotExists "merchants" s1
  let s3 := createTableIfNotExists "transactions" s2
  let s4 ← createIndex "idx_transaction_date" s3
  let s5 ← createIndex "idx_transaction_status" s4
  let s6 ← createIndex "idx_transaction_method" s5
  let s7 ← createIndex "idx_customer_id" s6
  let s8 ← createIndex "idx_merchant_id" s7
  let s9 := createViewIfNotExists "daily_summary" s8
  pure (createViewIfNotExists "merchant_performance" s9)

/-- The schema create_database provisions. -/
def setupSchema : Schema :=
  ⟨["customers", "merchants", "transactions"],
   ["idx_transaction_date", "idx_transaction_status", "idx_transaction_method",
    "idx_customer_id", "idx_merchant_id"],
   ["daily_summary", "merchant_performance"]⟩

/- ===== Spec-side reference aggregations (for cross-checks) ===== -/

/-- Sum of the amounts of ALL transactions of merchants in category `c`,
regardless of status (the volume the spec claims for category performance). -/
def allStatusCategoryVolume (db : DB) (c : String) : Int :=
  (((categoryPairs db).filter (fun p => decide (p.1.category = c))).map
    (fun p => p.2.amount)).sum

/-- Sum of the amounts of the approved transactions of merchants in
category `c`. -/
def approvedCategoryVolume (db : DB) (c : String) : Int :=
  (((categoryPairs db).filter
      (fun p => decide (p.1.category = c ∧ p.2.status = "approved"))).map
    (fun p => p.2.amount)).sum

/-- Sum of the amounts of merchant `m`'s approved transactions, aggregated
directly from the raw table. -/
def merchantApprovedVolume (db : DB) (m : Merchant) : Int :=
  ((db.transactions.filter
      (fun t => decide (t.merchant_id = m.id ∧ t.status = "approved"))).map
    Txn.amount).sum

/-- Count of merchant `m`'s approved transactions. -/
def merchantApprovedCount (db : DB) (m : Merchant) : Nat :=
  (db.transactions.filter
    (fun t => decide (t.merchant_id = m.id ∧ t.status = "approved"))).length

/- ===== Concrete fixture stores and draws ===== -/

/-- A store holding data from a prior successful generation run. -/
def priorStoreEx : DB :=
  ⟨[⟨1, "Ana Lima", "ana@exemplo.com", "11 99999-0000", "390.533.447-05"⟩],
   [⟨1, "Mercado Azul", "Supermercado", "12.345.678/0001-95"⟩],
   [⟨1, 1, 1, 5000, "pix", "approved", 100000, "Compra em estabelecimento"⟩]⟩

/-- Rows a failing generation run had inserted before the exception. -/
def failedInsertEx : DB :=
  ⟨[⟨2, "Bruno Reis", "bruno@exemplo.com", "11 98888-0000", "111.222.333-44"⟩], [], []⟩

/-- A store with one category holding one approved (R$ 10.00) and one
declined (R$ 5.00) transaction. -/
def categoryDBEx : DB :=
  ⟨[⟨1, "Ana Lima", "ana@exemplo.com", "11 99999-0000", "390.533.447-05"⟩],
   [⟨1, "Loja Azul", "Eletrônicos", "12.345.678/0001-95"⟩],
   [⟨1, 1, 1, 1000, "pix", "approved", 0, "Compra online"⟩,
    ⟨2, 1, 1, 500, "pix", "declined", 0, "Compra online"⟩]⟩

/-- A store with three transactions of which exactly one is approved. -/
def kpiDBEx : DB :=
  ⟨[], [],
   [⟨1, 1, 1, 1000, "pix", "approved", 0, "Recarga"⟩,
    ⟨2, 1, 1, 1000, "pix", "declined", 0, "Recarga"⟩,
    ⟨3, 1, 1, 1000, "pix", "declined", 0, "Recarga"⟩]⟩

/-- One generated customer. -/
def custEx : List Customer :=
  [⟨1, "Ana Lima", "ana@exemplo.com", "11 99999-0000", "390.533.447-05"⟩]

/-- One generated merchant. -/
def merchEx : List Merchant :=
  [⟨1, "Mercado Azul", "Supermercado", "12.345.678/0001-95"⟩]

/-- A concrete anomaly draw: all choices pick the only customer/merchant,
every burst amount is R$ 200.00, every burst method is pix, and generation
time is minute 1200 (20:00 of day zero). -/
def anomEx : AnomalyDraw :=
  ⟨1, 1, 1, List.replicate 10 1, List.replicate 10 20000,
   List.replicate 10 "pix", 1200⟩

/-- The injected high-value transaction of the `anomEx` run. -/
def hvTxnEx : Txn :=
  ⟨1, 1, 1, 2500000, "credit_card", "approved", 1080, "Compra de alto valor"⟩

/- ===== Further list helpers ===== -/

/-- Placeholder row used only as the getD default when sampling a query
result at a concrete index. -/
def defaultTopRow : TopMerchantRow := ⟨"", "", 0, 0, 0, 0⟩


theorem mem_insertDesc {α β : Type} [LinearOrder β] (key : α → β) (a x : α) :
    ∀ l : List α, x ∈ insertDesc key a l ↔ x = a ∨ x ∈ l := by
  intro l
  induction l with
  | nil => simp [insertDesc]
  | cons b t ih =>
    by_cases h : key b ≤ key a
    · simp [insertDesc, h]
    · simp [insertDesc, h, ih]
      tauto

theorem mem_sortDesc {α β : Type} [LinearOrder β] (key : α → β) (x : α) :
    ∀ l : List α, x ∈ sortDesc key l ↔ x ∈ l := by
  intro l
  induction l with
  | nil => simp [sortDesc]
  | cons a t ih => simp [sortDesc, mem_insertDesc, ih]

theorem length_insertDesc {α β : Type} [LinearOrder β] (key : α → β) (a : α) :
    ∀ l : List α, (insertDesc key a l).length = l.length + 1 := by
  intro l
  induction l with
  | nil => simp [insertDesc]
  | cons b t ih =>
    by_cases h : key b ≤ key a
    · simp [insertDesc, h]
    · simp [insertDesc, h, ih]

theorem length_sortDesc {α β : Type} [LinearOrder β] (key : α → β) :
    ∀ l : List α, (sortDesc key l).length = l.length := by
  intro l
  induction l with
  | nil => rfl
  | cons a t ih => simp [sortDesc, length_insertDesc, ih]

theorem sorted_insertDesc {α β : Type} [LinearOrder β] (key : α → β) (a : α)
    (l : List α) (h : l.Sorted (fun x y => key y ≤ key x)) :
    (insertDesc key a l).Sorted (fun x y => key y ≤ key x) := by
  induction l with
  | nil => simp [insertDesc]
  | cons b t ih =>
    rw [List.sorted_cons] at h
    by_cases hba : key b ≤ key a
    · rw [insertDesc]
      simp only [hba, if_true]
      rw [List.sorted_cons]
      refine ⟨?_, ?_⟩
      · intro y hy
        rcases List.mem_cons.mp hy with hy | hy
        · subst hy; exact hba
        · exact le_trans (h.1 y hy) hba
      · rw [List.sorted_cons]
        exact h
    · rw [insertDesc]
      simp only [hba, if_false]
      rw [List.sorted_cons]
      refine ⟨?_, ih h.2⟩
      intro y hy
      rcases (mem_insertDesc key a y t).mp hy with hy | hy
      · subst hy
        exact le_of_not_le hba
      · exact h.1 y hy

theorem sorted_sortDesc {α β : Type} [LinearOrder β] (key : α → β) :
    ∀ l : List α, (sortDesc key l).Sorted (fun x y => key y ≤ key x) := by
  intro l
  induction l with
  | nil => simp [sortDesc]
  | cons a t ih => exact sorted_insertDesc key a _ ih

theorem sorted_take {α : Type} {R : α → α → Prop} {l : List α}
    (h : l.Sorted R) (n : Nat) : (l.take n).Sorted R :=
  List.Pairwise.sublist (List.take_sublist n l) h

theorem take_ne_nil_of_ne_nil {α : Type} {l : List α} (h : l ≠ []) {n : Nat}
    (hn : n ≠ 0) : l.take n ≠ [] := by
  cases l with
  | nil => exact absurd rfl h
  | cons a t =>
    cases n with
    | zero => exact absurd rfl hn
    | succ m => simp [List.take]

theorem find?_isSome_of_mem {α : Type} {p : α → Bool} {a : α} :
    ∀ {l : List α}, a ∈ l → p a = true → ∃ b, l.find? p = some b := by
  intro l
  induction l with
  | nil => intro h; exact absurd h (List.not_mem_nil a)
  | cons c t ih =>
    intro hmem hp
    by_cases hc : p c = true
    · exact ⟨c, by rw [List.find?_cons, hc]⟩
    · rcases List.mem_cons.mp hmem with h | h
      · subst h; exact absurd hp hc
      · rcases ih h hp with ⟨b, hb⟩
        have hc' : p c = false := by
          cases hpc : p c
          · rfl
          · exact absurd hpc hc
        refine ⟨b, ?_⟩
        rw [List.find?_cons, hc']
        exact hb

theorem getD_mem {α : Type} :
    ∀ (l : List α) (i : Nat), i < l.length → ∀ d : α, l.getD i d ∈ l := by
  intro l
  induction l with
  | nil => intro i h; simp at h
  | cons a t ih =>
    intro i h d
    cases i with
    | zero => simp
    | succ j =>
      have hj : j < t.length := by simpa using h
      simp only [List.getD_cons_succ]
      exact List.mem_cons_of_mem a (ih j hj d)

theorem sum_map_ite {α : Type} (p : α → Prop) [DecidablePred p] (f : α → Int) :
    ∀ l : List α,
      (l.map (fun a => if p a then f a else 0)).sum =
        ((l.filter (fun a => decide (p a))).map f).sum := by
  intro l
  induction l with
  | nil => rfl
  | cons a t ih =>
    by_cases h : p a
    · simp [h, ih]
    · simp [h, ih]

theorem length_le_countP_add_countP {α : Type} (p q : α → Bool) :
    ∀ l : List α, (∀ a ∈ l, p a = true ∨ q a = true) →
      l.length ≤ l.countP p + l.countP q := by
  intro l
  induction l with
  | nil => intro _; simp
  | cons a t ih =>
    intro h
    have ht := ih (fun x hx => h x (List.mem_cons_of_mem a hx))
    have ha := h a (List.mem_cons_self a t)
    rcases ha with ha | ha
    · simp [List.countP_cons, ha]
      omega
    · simp [List.countP_cons, ha]
      omega

theorem countP_pos_exists {α : Type} (p : α → Bool) :
    ∀ l : List α, 0 < l.countP p → ∃ a ∈ l, p a = true := by
  intro l
  induction l with
  | nil => intro h; simp at h
  | cons a t ih =>
    intro h
    by_cases ha : p a = true
    · exact ⟨a, List.mem_cons_self a t, ha⟩
    · have hf : p a = false := by
        cases hpa : p a
        · rfl
        · exact absurd hpa ha
      rw [List.countP_cons, hf] at h
      simp at h
      rcases h with ⟨b, hb, hpb⟩
      exact ⟨b, List.mem_cons_of_mem a hb, hpb⟩

/- ===== Query layer (src/database.py) ===== -/

theorem sortDesc_ne_nil {α β : Type} [LinearOrder β] (key : α → β)
    {l : List α} (h : l ≠ []) : sortDesc key l ≠ [] := by
  intro hc
  apply h
  have hlen := length_sortDesc key l
  rw [hc] at hlen
  exact List.length_eq_zero.mp hlen.symm

theorem countP_congr_mem {α : Type} (p q : α → Bool) :
    ∀ l : List α, (∀ a ∈ l, p a = q a) → l.countP p = l.countP q := by
  intro l
  induction l with
  | nil => intro _; rfl
  | cons a t ih =>
    intro h
    rw [List.countP_cons, List.countP_cons, h a (List.mem_cons_self a t),
        ih (fun x hx => h x (List.mem_cons_of_mem a hx))]

theorem round2_hundred : round2 100 = 100 := by
  unfold round2
  norm_num

/- ===== Claims ===== -/

/-- C1 (counterexample): on a store already holding data from a prior run, a
generation run that fails mid-run does NOT leave the store in its prior
state: the prior rows were deleted and committed before generation started,
so rollback restores the empty post-cleanup snapshot, not the prior data. -/
theorem generation_failure_not_prior_state_cex :
    generate_data_main priorStoreEx (GenOutcome.failure failedInsertEx) ≠ priorStoreEx ∧
    generate_data_main priorStoreEx (GenOutcome.failure failedInsertEx) = emptyDB := by
  refine ⟨?_, rfl⟩
  decide

/-- C1 (amended): if any exception is raised mid-run during data generation,
the rows inserted by the failing invocation are rolled back (none is
retained), but the rows that existed before the invocation are NOT still
present: main() deletes them and commits that deletion before generating, so
the store is left empty, whatever prior data it held and whatever the
failing run had inserted. -/
theorem generation_failure_leaves_store_empty (prior rows : DB) :
    generate_data_main prior (GenOutcome.failure rows) = emptyDB := rfl

/-- C3 (counterexample): on an empty store the KPI snapshot's approval_rate
is NULL (Python None), not 0; and on a store with 3 transactions of which 1
is approved it is ROUND(100/3, 2) = 33.33, not exactly 100 * 1 / 3. -/
theorem kpi_approval_rate_claim_cex :
    (get_kpis emptyDB).approval_rate = none ∧
    (get_kpis emptyDB).approval_rate ≠ some 0 ∧
    (get_kpis kpiDBEx).approval_rate ≠ some (100 * (1 : ℚ) / 3) := by
  refine ⟨rfl, ?_, ?_⟩
  · decide
  · have happ : (get_kpis kpiDBEx).approval_rate =
        some (round2 (100 * (1 : ℚ) / 3)) := by
      simp [get_kpis, kpiDBEx]
    rw [happ]
    intro h
    have h2 := Option.some.inj h
    rw [round2] at h2
    norm_num [round_eq] at h2

/-- C3 (amended): for every store, the KPI snapshot's approval_rate equals
100 * approved_count / total_count rounded to two decimals when the
transactions table is nonempty, and is NULL/None — a safe default, not a
runtime fault — when the table is empty (total_count = 0). -/
theorem kpi_approval_rate_formula (db : DB) :
    (get_kpis db).approval_rate =
      if db.transactions.length = 0 then none
      else some (round2 (100 *
        ((db.transactions.countP (fun t => decide (t.status = "approved"))) : ℚ) /
        (db.transactions.length : ℚ))) := by
  simp [get_kpis, List.countP_eq_length_filter]

/-- C5: for every store and every threshold T, the high-value anomaly query
returns only rows with amount strictly greater than T, returns at most 50
rows, and returns them sorted descending by amount. -/
theorem high_value_query_filter_cap_sorted (db : DB) (T : Int) :
    (∀ r ∈ get_anomalies_high_value db T, T < r.amount) ∧
    (get_anomalies_high_value db T).length ≤ 50 ∧
    (get_anomalies_high_value db T).Sorted (fun a b => b.amount ≤ a.amount) := by
  refine ⟨?_, ?_, ?_⟩
  · intro r hr
    unfold get_anomalies_high_value at hr
    have hr' := List.take_subset _ _ hr
    rw [mem_sortDesc] at hr'
    have hp := (List.mem_filter.mp hr').2
    simpa using hp
  · unfold get_anomalies_high_value
    exact List.length_take_le _ _
  · unfold get_anomalies_high_value
    exact sorted_take (sorted_sortDesc _ _) 50

/-- C8: the Schema Provisioner destroys any prior store, so running it from
any two starting states (in particular, running it twice in a row) yields the
same resulting store: an empty schema with exactly the three tables, five
indexes and two views, each list without duplicates. -/
theorem create_database_idempotent_reset (p q : Option Schema) :
    create_database p = create_database q ∧
    create_database p = Except.ok setupSchema ∧
    setupSchema.tables.length = 3 ∧ setupSchema.indexes.length = 5 ∧
    setupSchema.views.length = 2 ∧
    setupSchema.tables.Nodup ∧ setupSchema.indexes.Nodup ∧ setupSchema.views.Nodup := by
  refine ⟨rfl, ?_, by decide, by decide, by decide, by decide, by decide, by decide⟩
  rfl

/-- C9: for every store, the filtered transaction listing treats the
sentinel string 'Todos' for payment_method (resp. status) exactly as an
omitted (None) filter: the corresponding predicate is disabled rather than
matching a literal 'Todos' value. -/
theorem todos_sentinel_equals_none (db : DB) (sd ed : Option Nat)
    (pm st : Option String) (lim : Nat) :
    get_transactions_filtered db sd ed (some "Todos") st lim =
      get_transactions_filtered db sd ed none st lim ∧
    get_transactions_filtered db sd ed pm (some "Todos") lim =
      get_transactions_filtered db sd ed pm none lim := by
  have h : ∀ (col : FilteredRow → String) (rows : List FilteredRow),
      applyOptFilter col (some "Todos") rows = rows := by
    intro col rows
    show (if ("Todos" = "" ∨ "Todos" = "Todos") then rows
          else rows.filter (fun r => decide (col r = "Todos"))) = rows
    rw [if_pos (Or.inr rfl)]
  have h0 : ∀ (col : FilteredRow → String) (rows : List FilteredRow),
      applyOptFilter col none rows = rows := fun _ _ => rfl
  constructor
  · simp only [get_transactions_filtered, h, h0]
  · simp only [get_transactions_filtered, h, h0]

/-- C10: every row returned by the top-merchants operation has
approval_rate exactly 100: the approved-only WHERE filter runs before
grouping, so each group contains only approved transactions and the
per-group approval-rate computation is 100 * n / n. -/
theorem top_merchants_approval_rate_always_100 (db : DB) (N : Nat) :
    ∀ r ∈ get_top_merchants db N, r.approval_rate = 100 := by
  intro r hr
  unfold get_top_merchants at hr
  have hr' := List.take_subset _ _ hr
  rw [mem_sortDesc] at hr'
  rcases List.mem_filterMap.mp hr' with ⟨m, _, hfm⟩
  by_cases hg : topMerchantGroup db m = []
  · rw [if_pos hg] at hfm
    exact absurd hfm (by simp)
  · rw [if_neg hg] at hfm
    have hrec := Option.some.inj hfm
    have hrate : r.approval_rate = round2 (100 *
        ((((topMerchantGroup db m).filter
            (fun t => decide (t.status = "approved"))).length : ℚ)) /
        ((topMerchantGroup db m).length : ℚ)) := by
      rw [← hrec]
    have hall : (topMerchantGroup db m).filter
        (fun t => decide (t.status = "approved")) = topMerchantGroup db m := by
      apply List.filter_eq_self.mpr
      intro t ht
      have := (List.mem_filter.mp ht).2
      simp only [decide_eq_true_eq] at this
      simp [this.1]
    have hlen : ((topMerchantGroup db m).length : ℚ) ≠ 0 := by
      rw [Nat.cast_ne_zero]
      intro h0
      exact hg (List.length_eq_zero.mp h0)
    rw [hrate, hall, mul_div_assoc, div_self hlen, mul_one, round2_hundred]

theorem length_filter_cons_ge {α : Type} (p : α → Bool) (x : α) (l : List α) :
    (l.filter p).length ≤ ((x :: l).filter p).length := by
  rw [List.filter_cons]
  split
  · simp
  · exact le_refl _

theorem mem_generate_transactions {t : Txn} :
    ∀ (n : Nat) (ds : List TxnDraw), t ∈ generate_transactions n ds →
      ∃ d ∈ ds, ∃ i, t = mkTxn i d := by
  intro n ds
  induction ds generalizing n with
  | nil => intro h; simp [generate_transactions] at h
  | cons d rest ih =>
    intro h
    simp only [generate_transactions] at h
    rcases List.mem_cons.mp h with h | h
    · exact ⟨d, List.mem_cons_self _ _, n, h⟩
    · rcases ih (n + 1) h with ⟨d', hd', i, hi⟩
      exact ⟨d', List.mem_cons_of_mem _ hd', i, hi⟩

/-- C2 (counterexample): on a store whose single category holds one approved
transaction of 1000 cents and one declined transaction of 500 cents, the
category-performance row reports total_volume 1000, not the all-status sum
1500: the query sums only approved amounts (CASE WHEN approved). -/
theorem category_volume_all_statuses_cex :
    ¬ (∀ r ∈ get_category_performance categoryDBEx,
        r.total_volume = allStatusCategoryVolume categoryDBEx r.category) := by
  decide

/-- C2 (amended): for every populated store, each row of the
category-performance operation reports a total_volume equal to the sum of
amount over the APPROVED transactions of merchants in that category (other
statuses contribute zero), and the rows are ordered descending by that
approved volume. -/
theorem category_performance_approved_volume_sorted (db : DB) :
    (∀ r ∈ get_category_performance db,
        r.total_volume = approvedCategoryVolume db r.category) ∧
    (get_category_performance db).Sorted (fun a b => b.total_volume ≤ a.total_volume) := by
  constructor
  · intro r hr
    simp only [get_category_performance] at hr
    rw [mem_sortDesc] at hr
    rcases List.mem_map.mp hr with ⟨c, _, hrc⟩
    subst hrc
    show (((categoryPairs db).filter (fun p => decide (p.1.category = c))).map
        (fun p => if p.2.status = "approved" then p.2.amount else 0)).sum =
      approvedCategoryVolume db c
    rw [sum_map_ite (fun p : Merchant × Txn => p.2.status = "approved")
        (fun p => p.2.amount)]
    unfold approvedCategoryVolume
    rw [List.filter_filter]
    simp only [Bool.decide_and]
    congr 1
    congr 1
    apply List.filter_congr
    intro p _
    exact Bool.and_comm _ _
  · simp only [get_category_performance]
    exact sorted_sortDesc _ _

/-- C6: for every store and every limit N, the top-merchants operation
returns at most N rows, sorted descending by approved volume, and every
returned row belongs to a merchant whose name/category it carries and whose
total_volume and total_transactions equal the sum and count of exactly that
merchant's approved transaction amounts (approved-only restriction). -/
theorem top_merchants_contract (db : DB) (N : Nat) :
    (get_top_merchants db N).length ≤ N ∧
    (get_top_merchants db N).Sorted (fun a b => b.total_volume ≤ a.total_volume) ∧
    (∀ r ∈ get_top_merchants db N, ∃ m ∈ db.merchants,
      r.name = m.name ∧ r.category = m.category ∧
      r.total_volume = merchantApprovedVolume db m ∧
      r.total_transactions = merchantApprovedCount db m) := by
  refine ⟨?_, ?_, ?_⟩
  · simp only [get_top_merchants]
    exact List.length_take_le _ _
  · simp only [get_top_merchants]
    exact sorted_take (sorted_sortDesc _ _) N
  · intro r hr
    simp only [get_top_merchants] at hr
    have hr' := List.take_subset _ _ hr
    rw [mem_sortDesc] at hr'
    rcases List.mem_filterMap.mp hr' with ⟨m, hm, hfm⟩
    by_cases hg : topMerchantGroup db m = []
    · rw [if_pos hg] at hfm
      exact absurd hfm (by simp)
    · rw [if_neg hg] at hfm
      have hrec := Option.some.inj hfm
      refine ⟨m, hm, ?_, ?_, ?_, ?_⟩
      · rw [← hrec]
      · rw [← hrec]
      · rw [← hrec]
        show ((topMerchantGroup db m).map Txn.amount).sum = merchantApprovedVolume db m
        unfold merchantApprovedVolume topMerchantGroup
        congr 1
        congr 1
        apply List.filter_congr
        intro t _
        exact decide_eq_decide.mpr and_comm
      · rw [← hrec]
        show (topMerchantGroup db m).length = merchantApprovedCount db m
        unfold merchantApprovedCount topMerchantGroup
        congr 1
        apply List.filter_congr
        intro t _
        exact decide_eq_decide.mpr and_comm

/-- C7: every transaction row produced by a generation run (the bulk
transactions and the injected anomalies, given non-empty customer and
merchant id lists — non-emptiness is implied by the membership constraints
of the draws) references customer and merchant ids of rows created in that
run, has amount > 0, a status in the closed status set, and a payment
method in the closed payment-method set. -/
theorem generated_transactions_invariants
    (customers : List Customer) (merchants : List Merchant)
    (draws : List TxnDraw) (a : AnomalyDraw)
    (hd : ∀ d ∈ draws, d.Valid (customers.map Customer.id) (merchants.map Merchant.id))
    (ha : a.Valid (customers.map Customer.id) (merchants.map Merchant.id)) :
    ∀ t ∈ (genDB customers merchants draws a).transactions,
      t.customer_id ∈ customers.map Customer.id ∧
      t.merchant_id ∈ merchants.map Merchant.id ∧
      0 < t.amount ∧ t.status ∈ STATUSES ∧ t.payment_method ∈ PAYMENT_METHODS := by
  intro t ht
  simp only [genDB] at ht
  rcases List.mem_append.mp ht with ht | ht
  · rcases mem_generate_transactions 1 draws ht with ⟨d, hdm, i, rfl⟩
    have hv := hd d hdm
    refine ⟨hv.1, hv.2.1, ?_, hv.2.2.2.2.1, hv.2.2.2.1⟩
    show (0 : Int) < d.amount
    rcases hv.2.2.1 with ⟨h1, _⟩ | ⟨h1, _⟩ | ⟨h1, _⟩ <;> omega
  · obtain ⟨hc1, hc2, hc3, hlm, hmm, hla, hma, hls, hms, hnow⟩ := ha
    simp only [generate_anomalies] at ht
    rcases List.mem_cons.mp ht with rfl | ht
    · exact ⟨hc1, hc2, by norm_num [hvInjected], by simp [STATUSES, hvInjected],
        by simp [PAYMENT_METHODS, hvInjected]⟩
    · rcases List.mem_map.mp ht with ⟨i, hi, rfl⟩
      have hi10 : i < 10 := List.mem_range.mp hi
      refine ⟨hc3, ?_, ?_, by simp [STATUSES, burstTxn], ?_⟩
      · exact hmm _ (getD_mem _ i (by rw [hlm]; exact hi10) 0)
      · have hx := hma _ (getD_mem _ i (by rw [hla]; exact hi10) 0)
        show (0 : Int) < a.burst_amounts.getD i 0
        omega
      · exact hms _ (getD_mem _ i (by rw [hls]; exact hi10) "pix")

/-- C7 (witness): the invariants hold for the injected high-value
transaction of a concrete run with one customer (id 1), one merchant
(id 1), no bulk draws, and the anomaly draw `anomEx`. -/
theorem generated_transactions_invariants_witness :
    hvTxnEx.customer_id ∈ custEx.map Customer.id ∧
    hvTxnEx.merchant_id ∈ merchEx.map Merchant.id ∧
    0 < hvTxnEx.amount ∧ hvTxnEx.status ∈ STATUSES ∧
    hvTxnEx.payment_method ∈ PAYMENT_METHODS :=
  generated_transactions_invariants custEx merchEx [] anomEx
    (by decide) (by decide) hvTxnEx (by decide)

/-- C4: after any successful generation run (non-empty customer and merchant
id lists are implied by the draw constraints), both anomaly detectors at the
default thresholds surface at least one finding: the high-value query at
threshold 10000 (1000000 cents) returns at least one row — the injected
25000 transaction — and the high-frequency query at threshold 5 returns at
least one customer+hour-window group, because the ten injected burst
transactions span 18 minutes, so even when the burst straddles an hour
boundary one of the two windows holds at least five of them. -/
theorem anomaly_detectors_guaranteed_findings
    (customers : List Customer) (merchants : List Merchant)
    (draws : List TxnDraw) (a : AnomalyDraw)
    (hd : ∀ d ∈ draws, d.Valid (customers.map Customer.id) (merchants.map Merchant.id))
    (ha : a.Valid (customers.map Customer.id) (merchants.map Merchant.id)) :
    (get_anomalies (genDB customers merchants draws a) 1000000 5).1 ≠ [] ∧
    (get_anomalies (genDB customers merchants draws a) 1000000 5).2 ≠ [] := by
  obtain ⟨hc1, hc2, hc3, hlm, hmm, hla, hma, hls, hms, hnow⟩ := ha
  constructor
  · show get_anomalies_high_value (genDB customers merchants draws a) 1000000 ≠ []
    have ht0 : hvInjected (1 + draws.length) a ∈
        (genDB customers merchants draws a).transactions := by
      simp only [genDB]
      apply List.mem_append_right
      simp only [generate_anomalies]
      exact List.mem_cons_self _ _
    rcases List.mem_map.mp hc1 with ⟨c, hcm, hcid⟩
    rcases List.mem_map.mp hc2 with ⟨m, hmmem, hmid⟩
    rcases find?_isSome_of_mem (p := fun x : Customer =>
        decide (x.id = (hvInjected (1 + draws.length) a).customer_id)) hcm
        (by simp [hvInjected, hcid]) with ⟨c', hc'⟩
    rcases find?_isSome_of_mem (p := fun x : Merchant =>
        decide (x.id = (hvInjected (1 + draws.length) a).merchant_id)) hmmem
        (by simp [hvInjected, hmid]) with ⟨m', hm'⟩
    have hjoin : joinCM (genDB customers merchants draws a)
        (hvInjected (1 + draws.length) a) = some (c', m') := by
      simp only [joinCM, genDB]
      rw [hc', hm']
    have hfn0 : highValueRowOf (genDB customers merchants draws a)
        (hvInjected (1 + draws.length) a) =
        some { id := (hvInjected (1 + draws.length) a).id,
               transaction_date := (hvInjected (1 + draws.length) a).transaction_date,
               customer_name := c'.name, merchant_name := m'.name,
               amount := (hvInjected (1 + draws.length) a).amount,
               payment_method := (hvInjected (1 + draws.length) a).payment_method,
               status := (hvInjected (1 + draws.length) a).status } := by
      simp only [highValueRowOf]
      rw [hjoin]
      rfl
    simp only [get_anomalies_high_value]
    apply take_ne_nil_of_ne_nil _ (by norm_num)
    apply sortDesc_ne_nil
    refine List.ne_nil_of_mem (List.mem_filter.mpr
      ⟨List.mem_filterMap.mpr ⟨hvInjected (1 + draws.length) a, ht0, hfn0⟩, ?_⟩)
    show decide ((1000000 : Int) < 2500000) = true
    rfl
  · show get_anomalies_high_frequency (genDB customers merchants draws a) 5 ≠ []
    have hcover : ∀ i ∈ List.range 10,
        decide ((a.nowMin - 60 + 2 * i) / 60 = (a.nowMin - 60) / 60) = true ∨
        decide ((a.nowMin - 60 + 2 * i) / 60 = (a.nowMin - 60) / 60 + 1) = true := by
      intro i hi
      have hi10 : i < 10 := List.mem_range.mp hi
      have h1 : (a.nowMin - 60) / 60 ≤ (a.nowMin - 60 + 2 * i) / 60 :=
        Nat.div_le_div_right (Nat.le_add_right _ _)
      have h2 : (a.nowMin - 60 + 2 * i) / 60 ≤ (a.nowMin - 60) / 60 + 1 := by
        have hle : a.nowMin - 60 + 2 * i ≤ a.nowMin - 60 + 60 := by omega
        have h3 : (a.nowMin - 60 + 2 * i) / 60 ≤ (a.nowMin - 60 + 60) / 60 :=
          Nat.div_le_div_right hle
        rwa [Nat.add_div_right _ (by norm_num)] at h3
      have hor : (a.nowMin - 60 + 2 * i) / 60 = (a.nowMin - 60) / 60 ∨
          (a.nowMin - 60 + 2 * i) / 60 = (a.nowMin - 60) / 60 + 1 := by omega
      rcases hor with h | h
      · exact Or.inl (decide_eq_true h)
      · exact Or.inr (decide_eq_true h)
    have h10 : 10 ≤
        (List.range 10).countP
          (fun i => decide ((a.nowMin - 60 + 2 * i) / 60 = (a.nowMin - 60) / 60)) +
        (List.range 10).countP
          (fun i => decide ((a.nowMin - 60 + 2 * i) / 60 = (a.nowMin - 60) / 60 + 1)) := by
      have h := length_le_countP_add_countP
        (fun i => decide ((a.nowMin - 60 + 2 * i) / 60 = (a.nowMin - 60) / 60))
        (fun i => decide ((a.nowMin - 60 + 2 * i) / 60 = (a.nowMin - 60) / 60 + 1))
        (List.range 10) hcover
      simpa using h
    obtain ⟨w, hw5⟩ : ∃ w, 5 ≤ (List.range 10).countP
        (fun i => decide ((a.nowMin - 60 + 2 * i) / 60 = w)) := by
      by_cases hcase : 5 ≤ (List.range 10).countP
          (fun i => decide ((a.nowMin - 60 + 2 * i) / 60 = (a.nowMin - 60) / 60))
      · exact ⟨_, hcase⟩
      · exact ⟨(a.nowMin - 60) / 60 + 1, by omega⟩
    have hmapcount : (((List.range 10).map (burstTxn (1 + draws.length) a)).filter
        (fun t => decide (t.customer_id = a.burst_customer_id ∧ hourWindow t = w))).length =
        (List.range 10).countP (fun i => decide ((a.nowMin - 60 + 2 * i) / 60 = w)) := by
      rw [← List.countP_eq_length_filter, List.countP_map]
      apply countP_congr_mem
      intro i _
      exact decide_eq_decide.mpr (by simp [burstTxn, hourWindow])
    have hcount : 5 ≤ ((genDB customers merchants draws a).transactions.filter
        (fun t => decide (t.customer_id = a.burst_customer_id ∧ hourWindow t = w))).length := by
      refine le_trans hw5 ?_
      simp only [genDB, List.filter_append, List.length_append]
      have hanom : (List.range 10).countP
          (fun i => decide ((a.nowMin - 60 + 2 * i) / 60 = w)) ≤
          ((generate_anomalies (1 + draws.length) a).filter
            (fun t => decide (t.customer_id = a.burst_customer_id ∧ hourWindow t = w))).length := by
        simp only [generate_anomalies]
        exact le_trans (le_of_eq hmapcount.symm) (length_filter_cons_ge _ _ _)
      omega
    have hpos : 0 < (List.range 10).countP
        (fun i => decide ((a.nowMin - 60 + 2 * i) / 60 = w)) := by omega
    rcases countP_pos_exists _ _ hpos with ⟨i, hi_mem, hi_p⟩
    have hw_eq : (a.nowMin - 60 + 2 * i) / 60 = w := of_decide_eq_true hi_p
    have htW : burstTxn (1 + draws.length) a i ∈
        (genDB customers merchants draws a).transactions := by
      simp only [genDB]
      apply List.mem_append_right
      simp only [generate_anomalies]
      exact List.mem_cons_of_mem _ (List.mem_map_of_mem _ hi_mem)
    have hkey : (a.burst_customer_id, w) ∈
        ((genDB customers merchants draws a).transactions.map
          (fun t => (t.customer_id, hourWindow t))).dedup := by
      rw [List.mem_dedup]
      refine List.mem_map.mpr ⟨burstTxn (1 + draws.length) a i, htW, ?_⟩
      simp [burstTxn, hourWindow, hw_eq]
    have hrow : (a.burst_customer_id, w,
        ((genDB customers merchants draws a).transactions.filter
          (fun t => decide (t.customer_id = a.burst_customer_id ∧ hourWindow t = w))).length) ∈
        customer_hourly (genDB customers merchants draws a) 5 := by
      simp only [customer_hourly]
      refine List.mem_filter.mpr ⟨?_, ?_⟩
      · exact List.mem_map.mpr ⟨(a.burst_customer_id, w), hkey, rfl⟩
      · exact decide_eq_true hcount
    rcases List.mem_map.mp hc3 with ⟨c3, hc3m, hc3id⟩
    rcases find?_isSome_of_mem (p := fun x : Customer =>
        decide (x.id = a.burst_customer_id)) hc3m (by simp [hc3id]) with ⟨cb, hcb⟩
    have hfn : freqRowOf (genDB customers merchants draws a)
        (a.burst_customer_id, w,
         ((genDB customers merchants draws a).transactions.filter
           (fun t => decide (t.customer_id = a.burst_customer_id ∧ hourWindow t = w))).length) =
        some { customer_id := a.burst_customer_id, customer_name := cb.name,
               hour_window := w,
               transactions_count :=
                 ((genDB customers merchants draws a).transactions.filter
                   (fun t => decide (t.customer_id = a.burst_customer_id ∧
                     hourWindow t = w))).length } := by
      have hcg : (genDB customers merchants draws a).customers.find?
          (fun x : Customer => decide (x.id = a.burst_customer_id)) = some cb := hcb
      have hne : ¬ ((genDB customers merchants draws a).transactions.filter
          (fun t => decide (t.customer_id = a.burst_customer_id ∧
            hourWindow t = w))).length = 0 := by omega
      simp only [freqRowOf]
      rw [hcg, Option.some_bind, if_neg hne]
    simp only [get_anomalies_high_frequency]
    apply take_ne_nil_of_ne_nil _ (by norm_num)
    apply sortDesc_ne_nil
    exact List.ne_nil_of_mem (List.mem_filterMap.mpr ⟨_, hrow, hfn⟩)

/-- C4 (witness): both detectors surface a finding on the concrete run with
one customer, one merchant, no bulk draws and the anomaly draw `anomEx`. -/
theorem anomaly_detectors_guaranteed_findings_witness :
    (get_anomalies (genDB custEx merchEx [] anomEx) 1000000 5).1 ≠ [] ∧
    (get_anomalies (genDB custEx merchEx [] anomEx) 1000000 5).2 ≠ [] :=
  anomaly_detectors_guaranteed_findings custEx merchEx [] anomEx
    (by decide) (by decide)

/-- C10 (witness): the first top-merchants row of a concrete populated store
has approval_rate 100. -/
theorem top_merchants_approval_rate_always_100_witness :
    ((get_top_merchants categoryDBEx 10).getD 0 defaultTopRow).approval_rate = 100 :=
  top_merchants_approval_rate_always_100 categoryDBEx 10 _
    (getD_mem _ 0 (by decide) defaultTopRow)
